import Mathlib

/-!
Shallow embedding of the Call Report downloader pipeline (src/code.py):
SOAP fetch of an FFIEC facsimile, base64 unwrap, XBRL fact extraction
with BeautifulSoup, and MDRM label mapping. Pure Python string/loop code
is translated directly; the network, the XML parsers and the file system
are modelled as an explicit environment (`World`, `MappingFile`).
-/

/-- Model of Python str.strip(): remove leading and trailing whitespace. -/
def pyStrip (s : String) : String :=
  String.mk (((s.data.dropWhile Char.isWhitespace).reverse.dropWhile Char.isWhitespace).reverse)

/-- Model of Python str.split(sep) for a one-character separator: split on
every occurrence, keeping empty segments (never returns an empty list). -/
def splitOnChar (sep : Char) : List Char → List (List Char)
  | [] => [[]]
  | c :: rest =>
      match splitOnChar sep rest with
      | [] => [[c]]
      | h :: t => if c = sep then [] :: h :: t else (c :: h) :: t

/-- Python s.split(sep) producing strings. -/
def pySplit (sep : Char) (s : String) : List String :=
  (splitOnChar sep s.data).map String.mk

/-- Value of a list of decimal digit characters. -/
def digitsToNat (l : List Char) : Nat :=
  l.foldl (fun n c => n * 10 + (c.toNat - Char.toNat '0')) 0

/-- Model of Python int(s) on a string: strip whitespace, optional sign,
then a nonempty run of decimal digits; anything else raises ValueError
(modelled as none). -/
def pyInt (s : String) : Option Int :=
  match (pyStrip s).data with
  | [] => none
  | '-' :: rest =>
      if rest ≠ [] ∧ rest.all Char.isDigit then some (-(digitsToNat rest : Int)) else none
  | '+' :: rest =>
      if rest ≠ [] ∧ rest.all Char.isDigit then some ((digitsToNat rest : Int)) else none
  | l =>
      if l.all Char.isDigit then some ((digitsToNat l : Int)) else none

/-- Model of Python str.zfill(width): left-pad with zeros up to width,
inserting the zeros after a leading sign character if present. -/
def zfill (width : Nat) (s : String) : String :=
  if width ≤ s.length then s
  else
    let pad := List.replicate (width - s.length) '0'
    match s.data with
    | '+' :: rest => String.mk ('+' :: (pad ++ rest))
    | '-' :: rest => String.mk ('-' :: (pad ++ rest))
    | l => String.mk (pad ++ l)

/-- The factId extraction (code.py line 66): tag.name.split(":")[-1],
i.e. the segment after the last colon (the whole name if no colon). -/
def fact_id (name : String) : String :=
  (pySplit ':' name).getLastD ""

/-- A node of the parsed XML tree produced by BeautifulSoup(..., "xml"):
an element with a tag name, attributes and ordered contents, or a bare
string (NavigableString). -/
inductive XNode where
  | elem (name : String) (attrs : List (String × String)) (children : List XNode)
  | text (s : String)

/-- Direct contents of a tag (bs4 Tag.contents); a string has none. -/
def XNode.contents : XNode → List XNode
  | .elem _ _ cs => cs
  | .text _ => []

/-- Whether the node is a Tag (as opposed to a NavigableString). -/
def XNode.isElem : XNode → Bool
  | .elem _ _ _ => true
  | .text _ => false

/-- The tag name (bs4 Tag.name); empty for a string node. -/
def XNode.tagName : XNode → String
  | .elem n _ _ => n
  | .text _ => ""

/-- Model of bs4 tag.has_attr(k). -/
def XNode.hasAttr (x : XNode) (k : String) : Bool :=
  match x with
  | .elem _ attrs _ => attrs.any (fun p => p.1 == k)
  | .text _ => false

/-- Model of bs4 tag[k] (first binding of the attribute; "" if absent,
though the code only reads attributes it has checked for). -/
def XNode.getAttr (x : XNode) (k : String) : String :=
  match x with
  | .elem _ attrs _ => (((attrs.find? (fun p => p.1 == k)).map Prod.snd).getD "")
  | .text _ => ""

mutual

/-- All descendants of a node, in document (pre-)order, strings included. -/
def descNode : XNode → List XNode
  | .elem _ _ cs => descList cs
  | .text _ => []

/-- All nodes of a forest in document order: each root, then its
descendants, then the rest. -/
def descList : List XNode → List XNode
  | [] => []
  | c :: cs => c :: (descNode c ++ descList cs)

end

mutual

/-- Model of bs4 get_text(strip=True) on a node: concatenation of every
string in the subtree, each stripped. -/
def textNode : XNode → String
  | .elem _ _ cs => textList cs
  | .text s => pyStrip s

def textList : List XNode → String
  | [] => ""
  | c :: cs => textNode c ++ textList cs

end

/-- Model of xbrl_tag.find_all(): every descendant Tag of the node, in
document order (strings are not returned by find_all). -/
def find_all (x : XNode) : List XNode :=
  (descNode x).filter XNode.isElem

/-- Model of soup.find(name): the first Tag in document order, searching
the whole document recursively, whose name matches. -/
def soupFind (nm : String) (doc : List XNode) : Option XNode :=
  (descList doc).find? (fun t => t.isElem && t.tagName == nm)

/-- One extracted fact row (a record appended in code.py lines 67-72). -/
structure RawFact where
  rssd_id : String
  id : String
  value : String
  decimal : String
deriving DecidableEq, Repr

/-- The record built for one qualifying tag (code.py lines 66-72). -/
def mkFact (rssd : String) (t : XNode) : RawFact :=
  { rssd_id := rssd
    id := fact_id t.tagName
    value := textNode t
    decimal := t.getAttr "decimals" }

/-- The extraction loop (code.py lines 63-72): for tag in find_all(),
append a record when the tag has a "decimals" attribute. -/
def extractLoop (rssd : String) (tags : List XNode) : List RawFact :=
  tags.foldl (fun acc t => if t.hasAttr "decimals" then acc ++ [mkFact rssd t] else acc) []

/-- parse_xbrl_to_dataframe (code.py lines 57-73), taking the already
parsed tree (the environment's model of BeautifulSoup(unescape content,
"xml")). soup.find("xbrl") is checked with Python truthiness: a missing
tag, and also a found tag with no contents (bs4 tags are falsy when
empty), raise ValueError. Otherwise one record per descendant tag that
has a "decimals" attribute. -/
def parse_xbrl_to_dataframe (doc : List XNode) (rssd_id : String) :
    Except String (List RawFact) :=
  match soupFind "xbrl" doc with
  | none => .error "No <xbrl> element found in the file!"
  | some x =>
      if x.contents.isEmpty then .error "No <xbrl> element found in the file!"
      else .ok (extractLoop rssd_id (find_all x))

/-- The rows the Fact Extractor emits for a document: the parsed records
on success, no rows when it raises. -/
def emittedRows (doc : List XNode) (rssd : String) : List RawFact :=
  match parse_xbrl_to_dataframe doc rssd with
  | .ok l => l
  | .error _ => []

/-- Outcome of requests.post(url, data, headers) (code.py line 53): the
call itself may raise a connection-level exception, or yields an HTTP
response with a status code and body text. -/
inductive FetchOutcome where
  | postRaise
  | response (status : Nat) (text : String)

/-- Error raised out of fetch_facsimile: the post exception, or the
HTTPError from raise_for_status, carrying the status and body. -/
inductive TransportError where
  | connectionFailed
  | httpError (status : Nat) (body : String)
deriving DecidableEq

/-- fetch_facsimile (code.py lines 52-55): post the body, then
response.raise_for_status(), which raises exactly when the status code
is a client or server error (400 <= status < 600); otherwise return the
response (only its text is consumed downstream). -/
def fetch_facsimile : FetchOutcome → Except TransportError String
  | .postRaise => .error .connectionFailed
  | .response s t =>
      if 400 ≤ s ∧ s < 600 then .error (.httpError s t) else .ok t

/-- Result of ET.fromstring(response.text) followed by
root.find(".//ns:RetrieveFacsimileResult", namespaces) (code.py lines
103-108): the parse may raise, the element may be absent, or it is
present with an optional text (Element.text is None for an empty
element). -/
inductive EnvelopeOutcome where
  | parseRaise
  | noElement
  | element (text : Option String)

/-- The environment of one run: how the network and the external parsers
behave. fetch gives the service response for the request built by
make_soap_body(int(rssd_id), period, username, passphrase) — the period
and credentials are fixed for a run, so it is keyed by the converted
integer identifier. envelope models ET parsing of the response text,
b64utf8 models base64.b64decode(...).decode("utf-8") (none when either
decode raises), and parseTree models BeautifulSoup(unescape(content),
"xml") applied to the decoded document. -/
structure World where
  fetch : Int → FetchOutcome
  envelope : String → EnvelopeOutcome
  b64utf8 : String → Option String
  parseTree : String → List XNode

/-- process_rssd_id (code.py lines 95-120): run one identifier through
int conversion, transport, envelope unwrap, base64 decode and XBRL
extraction. The try/except turns any raise into st.error plus None; a
missing or empty result element is a warning plus None. A successful
parse returns the (possibly empty) row list. -/
def process_rssd_id (w : World) (rssd_id : String) : Option (List RawFact) :=
  match pyInt rssd_id with
  | none => none
  | some n =>
      match fetch_facsimile (w.fetch n) with
      | .error _ => none
      | .ok respText =>
          match w.envelope respText with
          | .parseRaise => none
          | .noElement => none
          | .element none => none
          | .element (some t) =>
              if t = "" then none
              else
                match w.b64utf8 t with
                | none => none
                | some decoded =>
                    match parse_xbrl_to_dataframe (w.parseTree decoded) rssd_id with
                    | .error _ => none
                    | .ok facts => some facts

/-- One row of the MDRM reference table as read by pd.read_csv with
skiprows=1 and dtype=str (code.py lines 79-83). -/
structure MdrmRow where
  mnemonic : String
  itemCode : String
  itemName : String
deriving DecidableEq

/-- The composite key built in code.py lines 85-88:
Mnemonic.str.strip() + Item Code.str.zfill(4). -/
def mappingKey (r : MdrmRow) : String :=
  pyStrip r.mnemonic ++ zfill 4 r.itemCode

/-- Insert into a Python dict modelled as an ordered association list:
an existing key keeps its position and gets the new value, a new key is
appended. -/
def dictInsert : List (String × String) → String → String → List (String × String)
  | [], k, v => [(k, v)]
  | (k0, v0) :: rest, k, v =>
      if k0 = k then (k0, v) :: rest else (k0, v0) :: dictInsert rest k v

/-- Build a dict from a sequence of key/value pairs, later pairs
overwriting earlier ones — the semantics of
pd.Series(values, index=keys).to_dict() (code.py lines 90-93). -/
def dictOf (pairs : List (String × String)) : List (String × String) :=
  pairs.foldl (fun m p => dictInsert m p.1 p.2) []

/-- Dict lookup. -/
def dictGet (m : List (String × String)) (k : String) : Option String :=
  (m.find? (fun p => p.1 == k)).map Prod.snd

/-- State of the MDRM reference file: absent (pd.read_csv raises
FileNotFoundError), present but unusable (any other exception while
reading or while selecting the Mnemonic / Item Code / Item Name
columns), or successfully read as a table of rows. -/
inductive MappingFile where
  | missing
  | readError
  | rows (l : List MdrmRow)

/-- Exceptions out of get_mapping_dict. -/
inductive MappingErr where
  | fileNotFound
  | other
deriving DecidableEq

/-- get_mapping_dict (code.py lines 75-93): read the reference table and
return the composite-key-to-Item-Name dict. -/
def get_mapping_dict : MappingFile → Except MappingErr (List (String × String))
  | .missing => .error .fileNotFound
  | .readError => .error .other
  | .rows l => .ok (dictOf (l.map (fun r => (mappingKey r, r.itemName))))

/-- A combined row after the label column is assigned (code.py line 193). -/
structure LabeledRow where
  rssd_id : String
  id : String
  value : String
  decimal : String
  label : String
deriving DecidableEq

/-- combined_df["id"].map(mapping_dict): per-row dict lookup, missing
keys become NaN (none). -/
def seriesMapLabels (m : List (String × String)) (facts : List RawFact) :
    List (Option String) :=
  facts.map (fun f => dictGet m f.id)

/-- Series.fillna(d): replace every NaN with d. -/
def fillna (d : String) (l : List (Option String)) : List String :=
  l.map (fun o => o.getD d)

/-- The label assignment of code.py line 193: look every row's id up in
the mapping, default missing entries to "Unknown metric", and attach the
result as a new column. -/
def addLabel (facts : List RawFact) (m : List (String × String)) : List LabeledRow :=
  List.zipWith
    (fun f lab =>
      { rssd_id := f.rssd_id, id := f.id, value := f.value,
        decimal := f.decimal, label := lab })
    facts (fillna "Unknown metric" (seriesMapLabels m facts))

/-- The identifier list built in code.py line 153:
[id.strip() for id in rssd_ids_input.split(",") if id.strip()]. -/
def parse_ids (input : String) : List String :=
  ((pySplit ',' input).map pyStrip).filter (fun t => t ≠ "")

/-- The list all_dfs accumulated by the loop of code.py lines 167-173:
one entry per identifier whose process_rssd_id returned a dataframe. -/
def processBatch (w : World) (ids : List String) : List (List RawFact) :=
  ids.filterMap (process_rssd_id w)

/-- pd.concat(all_dfs, ignore_index=True): all rows in order. -/
def combinedRows (w : World) (ids : List String) : List RawFact :=
  (processBatch w ids).flatten

/-- How a button press ends (code.py lines 147-215): the empty-input
error of line 156, the batch-level "No data was retrieved for any RSSD
ID." of line 179, the outer except of lines 214-215, or the success path
that displays the combined table (raw, plus the labeled view unless the
mapping file was missing) and offers the CSV download. -/
inductive MainOutcome where
  | inputError
  | batchEmpty
  | genericError
  | success (raw : List RawFact) (labeled : Option (List LabeledRow))
deriving DecidableEq

/-- The body of main after the identifier list is known to be nonempty
(code.py lines 159-212): accumulate the dataframes, fail the batch when
none was produced, otherwise concatenate, and try the mapping — a
FileNotFoundError degrades to the unlabeled view, any other exception
(including the KeyError from combined_df["id"] when every accumulated
dataframe was empty, so the concatenation has no columns) escapes to the
outer except. -/
def runBatch (w : World) (ids : List String) (mf : MappingFile) : MainOutcome :=
  let dfs := processBatch w ids
  if dfs.isEmpty then .batchEmpty
  else
    let combined := dfs.flatten
    match get_mapping_dict mf with
    | .error .fileNotFound => .success combined none
    | .error .other => .genericError
    | .ok m =>
        if combined.isEmpty then .genericError
        else .success combined (some (addLabel combined m))

/-- main's button handler (code.py lines 147-215): split and trim the
identifier input, reject an empty list, then run the batch. -/
def runMain (w : World) (input : String) (mf : MappingFile) : MainOutcome :=
  let ids := parse_ids input
  if ids.isEmpty then .inputError
  else runBatch w ids mf

/-- A sample document: an xbrl root with one fact tagged with a
"decimals" attribute. -/
def sampleDoc : XNode :=
  XNode.elem "xbrl" []
    [XNode.elem "us-gaap:Assets" [("decimals", "0")] [XNode.text " 100 "]]

/-- The row extracted from sampleDoc for identifier "1". -/
def sampleFact : RawFact :=
  { rssd_id := "1", id := "Assets", value := "100", decimal := "0" }

/-- A concrete world: identifier 1 answers with a well-formed chain down
to sampleDoc, every other identifier gets a 404. -/
def w0 : World :=
  { fetch := fun n => if n == 1 then .response 200 "resp" else .response 404 "not found"
    envelope := fun t => if t == "resp" then .element (some "b64") else .parseRaise
    b64utf8 := fun t => if t == "b64" then some "doc" else none
    parseTree := fun s => if s == "doc" then [sampleDoc] else [] }

/-- A document whose xbrl root is nonempty but has no node carrying a
"decimals" attribute: it parses successfully into zero rows. -/
def noFactsDoc : XNode :=
  XNode.elem "xbrl" [] [XNode.elem "context" [] [XNode.text "c1"]]

/-- A world where every identifier successfully retrieves noFactsDoc. -/
def w1 : World :=
  { fetch := fun _ => .response 200 "resp"
    envelope := fun _ => .element (some "b64")
    b64utf8 := fun _ => some "doc"
    parseTree := fun _ => [noFactsDoc] }

/-- A document whose single fact tag has two colons in its name. -/
def twoColonDoc : XNode :=
  XNode.elem "xbrl" [] [XNode.elem "a:b:c" [("decimals", "2")] []]

/-- Default row used only to state positional lookups. -/
def dfltFact : RawFact := { rssd_id := "", id := "", value := "", decimal := "" }

/-- Default labeled row used only to state positional lookups. -/
def dfltRow : LabeledRow := { rssd_id := "", id := "", value := "", decimal := "", label := "" }

/-- Concrete facts used by the labeling witness: one id with a mapping
entry, one without. -/
def factsW : List RawFact :=
  [{ rssd_id := "1", id := "Assets", value := "100", decimal := "0" },
   { rssd_id := "1", id := "Zzz", value := "2", decimal := "0" }]

/-- Concrete mapping used by the labeling witness. -/
def mapW : List (String × String) := [("Assets", "Total assets")]

theorem splitOnChar_ne_nil (sep : Char) (l : List Char) : splitOnChar sep l ≠ [] := by
  induction l with
  | nil => simp [splitOnChar]
  | cons c rest ih =>
      cases hs : splitOnChar sep rest with
      | nil => exact absurd hs ih
      | cons h t =>
          simp only [splitOnChar, hs]
          split <;> simp

theorem splitOnChar_of_not_mem (sep : Char) (l : List Char)
    (h : ∀ c ∈ l, c ≠ sep) : splitOnChar sep l = [l] := by
  induction l with
  | nil => rfl
  | cons c rest ih =>
      have hc : c ≠ sep := h c (List.mem_cons_self c rest)
      have hr := ih (fun d hd => h d (List.mem_cons_of_mem c hd))
      simp [splitOnChar, hr, hc]

theorem splitOnChar_length_ge_two (sep : Char) (l : List Char)
    (h : sep ∈ l) : 2 ≤ (splitOnChar sep l).length := by
  induction l with
  | nil => cases h
  | cons c rest ih =>
      cases hs : splitOnChar sep rest with
      | nil => exact absurd hs (splitOnChar_ne_nil sep rest)
      | cons hh tt =>
          by_cases hc : c = sep
          · simp [splitOnChar, hs, hc]
          · have hm : sep ∈ rest := by
              rcases List.mem_cons.mp h with h1 | h1
              · exact absurd h1.symm hc
              · exact h1
            have := ih hm
            rw [hs] at this
            simp only [splitOnChar, hs, if_neg hc, List.length_cons] at *
            omega

theorem getLastD_irrel {α : Type} (l : List α) (hl : l ≠ []) (a b : α) :
    l.getLastD a = l.getLastD b := by
  cases l with
  | nil => exact absurd rfl hl
  | cons x xs => rw [List.getLastD_cons, List.getLastD_cons]

theorem splitOnChar_cons (sep c : Char) (rest : List Char) :
    splitOnChar sep (c :: rest)
      = match splitOnChar sep rest with
        | [] => [[c]]
        | h :: t => if c = sep then [] :: h :: t else (c :: h) :: t := rfl

theorem splitOnChar_getLastD_append (sep : Char) (l1 l2 : List Char) :
    (splitOnChar sep (l1 ++ sep :: l2)).getLastD []
      = (splitOnChar sep l2).getLastD [] := by
  induction l1 with
  | nil =>
      rw [List.nil_append, splitOnChar_cons]
      cases hs : splitOnChar sep l2 with
      | nil => exact absurd hs (splitOnChar_ne_nil sep l2)
      | cons h t =>
          show (if sep = sep then [] :: h :: t else (sep :: h) :: t).getLastD []
                 = (h :: t).getLastD []
          rw [if_pos rfl, List.getLastD_cons]
  | cons c l1 ih =>
      rw [List.cons_append, splitOnChar_cons]
      cases hs : splitOnChar sep (l1 ++ sep :: l2) with
      | nil => exact absurd hs (splitOnChar_ne_nil sep _)
      | cons h t =>
          rw [hs] at ih
          have hlen : 2 ≤ (splitOnChar sep (l1 ++ sep :: l2)).length :=
            splitOnChar_length_ge_two sep _ (by simp)
          rw [hs] at hlen
          have ht : t ≠ [] := by
            cases t with
            | nil => simp at hlen
            | cons a b => simp
          show (if c = sep then [] :: h :: t else (c :: h) :: t).getLastD []
                 = (splitOnChar sep l2).getLastD []
          by_cases hc : c = sep
          · rw [if_pos hc, List.getLastD_cons]
            exact ih
          · rw [if_neg hc, List.getLastD_cons]
            rw [List.getLastD_cons] at ih
            rw [getLastD_irrel t ht (c :: h) h]
            exact ih

theorem getLastD_map_mk (l : List (List Char)) (hne : l ≠ []) :
    ∀ (d : String) (e : List Char),
      (l.map String.mk).getLastD d = String.mk (l.getLastD e) := by
  induction l with
  | nil => exact absurd rfl hne
  | cons a t ih =>
      intro d e
      cases t with
      | nil => simp
      | cons b ts =>
          rw [List.map_cons, List.getLastD_cons, List.getLastD_cons]
          exact ih (by simp) (String.mk a) a

theorem fact_id_eq_mk (name : String) :
    fact_id name = String.mk ((splitOnChar ':' name.data).getLastD []) := by
  unfold fact_id pySplit
  exact getLastD_map_mk _ (splitOnChar_ne_nil ':' name.data) "" []

theorem extractLoop_go (rssd : String) (tags : List XNode) (acc : List RawFact) :
    tags.foldl (fun a t => if t.hasAttr "decimals" then a ++ [mkFact rssd t] else a) acc
      = acc ++ ((tags.filter (fun t => t.hasAttr "decimals")).map (mkFact rssd)) := by
  induction tags generalizing acc with
  | nil => simp
  | cons t ts ih =>
      by_cases h : t.hasAttr "decimals"
      · simp [List.foldl_cons, List.filter_cons, h, ih]
      · simp [List.foldl_cons, List.filter_cons, h, ih]

theorem extractLoop_eq (rssd : String) (tags : List XNode) :
    extractLoop rssd tags
      = (tags.filter (fun t => t.hasAttr "decimals")).map (mkFact rssd) := by
  unfold extractLoop
  rw [extractLoop_go]
  simp

theorem find_all_of_contents_nil (x : XNode) (h : x.contents = []) :
    find_all x = [] := by
  cases x with
  | text s => rfl
  | elem n a cs =>
      have : cs = [] := h
      subst this
      rfl

theorem parse_ok_facts (doc : List XNode) (rssd : String) (facts : List RawFact)
    (h : parse_xbrl_to_dataframe doc rssd = Except.ok facts) :
    ∃ x, soupFind "xbrl" doc = some x ∧
      facts = ((find_all x).filter (fun t => t.hasAttr "decimals")).map (mkFact rssd) := by
  unfold parse_xbrl_to_dataframe at h
  split at h
  · exact Except.noConfusion h
  · next x hx =>
      split at h
      · exact Except.noConfusion h
      · refine ⟨x, hx, ?_⟩
        injection h with h2
        rw [← h2, extractLoop_eq]

theorem dictGet_dictInsert_self (m : List (String × String)) (k v : String) :
    dictGet (dictInsert m k v) k = some v := by
  induction m with
  | nil => simp [dictInsert, dictGet]
  | cons p rest ih =>
      by_cases h : p.1 = k
      · simp [dictInsert, dictGet, h]
      · simp [dictInsert, dictGet, h] at *
        exact ih

theorem dictGet_dictInsert_ne (m : List (String × String)) (k0 k v : String)
    (h : k0 ≠ k) : dictGet (dictInsert m k0 v) k = dictGet m k := by
  induction m with
  | nil =>
      have hb : (k0 == k) = false := by simp [h]
      simp [dictInsert, dictGet, hb]
  | cons p rest ih =>
      obtain ⟨pk, pv⟩ := p
      by_cases hp : pk = k0
      · have hb : (pk == k) = false := by simp [hp, h]
        have hb2 : (k0 == k) = false := by simp [h]
        simp [dictInsert, dictGet, hp, List.find?_cons, hb, hb2]
      · simp only [dictInsert, if_neg hp, dictGet, List.find?_cons]
        cases hbk : (pk == k) with
        | false => exact ih
        | true => rfl

theorem dictGet_foldl_no_key (pairs : List (String × String)) (k : String)
    (h : ∀ p ∈ pairs, p.1 ≠ k) :
    ∀ m0, dictGet (pairs.foldl (fun m p => dictInsert m p.1 p.2) m0) k = dictGet m0 k := by
  induction pairs with
  | nil => intro m0; rfl
  | cons p rest ih =>
      intro m0
      rw [List.foldl_cons]
      rw [ih (fun q hq => h q (List.mem_cons_of_mem p hq))]
      exact dictGet_dictInsert_ne m0 p.1 k p.2 (h p (List.mem_cons_self p rest))

theorem addLabel_eq_map (facts : List RawFact) (m : List (String × String)) :
    addLabel facts m = facts.map (fun f =>
      { rssd_id := f.rssd_id, id := f.id, value := f.value, decimal := f.decimal,
        label := (dictGet m f.id).getD "Unknown metric" }) := by
  unfold addLabel fillna seriesMapLabels
  rw [List.map_map, List.zipWith_map_right, List.zipWith_same]
  rfl

theorem getD_map_of_lt {α β : Type} (f : α → β) (l : List α) (d : β) (e : α) :
    ∀ i, i < l.length → (l.map f).getD i d = f (l.getD i e) := by
  induction l with
  | nil => intro i hi; simp at hi
  | cons a t ih =>
      intro i hi
      cases i with
      | zero => simp
      | succ n =>
          rw [List.map_cons, List.getD_cons_succ, List.getD_cons_succ]
          exact ih n (by simpa using hi)

/-- C1: Fault isolation — for every list of identifiers, an identifier
whose processing fails at any pipeline stage (integer conversion,
transport, envelope decoding, missing xbrl root: all give
process_rssd_id = none) contributes zero rows, and the batch continues
with every other identifier's rows unchanged, both in the combined row
list and in the whole run outcome. -/
theorem fault_isolation (w : World) (mf : MappingFile) (pre post : List String)
    (bad : String) (h : process_rssd_id w bad = none) :
    combinedRows w (pre ++ bad :: post) = combinedRows w (pre ++ post) ∧
    runBatch w (pre ++ bad :: post) mf = runBatch w (pre ++ post) mf := by
  have hb : processBatch w (pre ++ bad :: post) = processBatch w (pre ++ post) := by
    simp [processBatch, List.filterMap_append, List.filterMap_cons, h]
  exact ⟨by simp [combinedRows, hb], by simp [runBatch, hb]⟩

/-- Witness for fault_isolation: in the concrete world w0 the identifier
"bad" fails integer conversion while "1" succeeds, and removing "bad"
changes nothing. -/
theorem fault_isolation_witness :
    process_rssd_id w0 "bad" = none ∧
    combinedRows w0 (["1"] ++ "bad" :: []) = combinedRows w0 (["1"] ++ []) ∧
    runBatch w0 (["1"] ++ "bad" :: []) MappingFile.missing
      = runBatch w0 (["1"] ++ []) MappingFile.missing := by
  refine ⟨by decide, ?_, ?_⟩
  · exact (fault_isolation w0 MappingFile.missing ["1"] [] "bad" (by decide)).1
  · exact (fault_isolation w0 MappingFile.missing ["1"] [] "bad" (by decide)).2

/-- C2 counterexample: in the world w1 the single identifier "1" yields
a successfully parsed document with no qualifying fact node, so zero
rows are produced overall, yet the run does not signal the batch-level
"no data retrieved" failure — all_dfs holds one (empty) dataframe, so
the check at code.py line 178 passes and the run instead dies in the
labeling step with the generic error. -/
theorem batch_empty_cex :
    combinedRows w1 (parse_ids "1") = [] ∧
    runMain w1 "1" (MappingFile.rows []) ≠ MainOutcome.batchEmpty ∧
    runMain w1 "1" (MappingFile.rows []) = MainOutcome.genericError := by
  refine ⟨by decide, ?_, by decide⟩
  intro hc
  exact absurd ((by decide : runMain w1 "1" (MappingFile.rows []) = MainOutcome.genericError).symm.trans hc) (by decide)

/-- C2 (amended): with a nonempty identifier list, the run signals the
batch-level "no data retrieved" failure iff no identifier produced a
dataframe — identifiers whose documents parse successfully with zero
qualifying nodes contribute an empty dataframe that counts as data. -/
theorem batch_empty_amended (w : World) (input : String) (mf : MappingFile)
    (h : parse_ids input ≠ []) :
    runMain w input mf = MainOutcome.batchEmpty
      ↔ processBatch w (parse_ids input) = [] := by
  obtain ⟨a, l, hl⟩ : ∃ a l, parse_ids input = a :: l := by
    cases hpi : parse_ids input with
    | nil => exact absurd hpi h
    | cons a l => exact ⟨a, l, rfl⟩
  unfold runMain runBatch
  rw [hl]
  simp only [List.isEmpty_cons, Bool.false_eq_true, if_false]
  cases hd : processBatch w (a :: l) with
  | nil => simp [hd]
  | cons d ds =>
      simp only [List.isEmpty_cons, Bool.false_eq_true, if_false]
      rcases hm : get_mapping_dict mf with e | mp
      · cases e <;> simp [hm]
      · simp only [hm]
        split <;> simp

/-- Witness for batch_empty_amended: in w0 the identifier "nope" fails,
no dataframe is produced, and the run does signal the batch failure. -/
theorem batch_empty_amended_witness :
    parse_ids "nope" ≠ [] ∧
    (runMain w0 "nope" MappingFile.missing = MainOutcome.batchEmpty
      ↔ processBatch w0 (parse_ids "nope") = []) :=
  ⟨by decide, batch_empty_amended w0 "nope" MappingFile.missing (by decide)⟩

/-- C3: Decimals discriminator — whenever the decoded document's tree
contains an xbrl element, the rows the Fact Extractor emits are exactly
one RawFact per descendant tag carrying a "decimals" attribute, in
document traversal order, and no row for any node lacking it, regardless
of text content. -/
theorem decimals_discriminator (doc : List XNode) (rssd : String) (x : XNode)
    (h : soupFind "xbrl" doc = some x) :
    emittedRows doc rssd
      = ((find_all x).filter (fun t => t.hasAttr "decimals")).map (mkFact rssd) := by
  unfold emittedRows parse_xbrl_to_dataframe
  rw [h]
  by_cases hc : x.contents.isEmpty
  · have hfa : find_all x = [] :=
      find_all_of_contents_nil x (List.isEmpty_iff.mp hc)
    simp [hc, hfa]
  · simp [hc, extractLoop_eq]

/-- Witness for decimals_discriminator on the sample document. -/
theorem decimals_discriminator_witness :
    soupFind "xbrl" [sampleDoc] = some sampleDoc ∧
    emittedRows [sampleDoc] "7"
      = [{ rssd_id := "7", id := "Assets", value := "100", decimal := "0" }] :=
  ⟨rfl, (decimals_discriminator [sampleDoc] "7" sampleDoc rfl).trans (by decide)⟩

/-- C4 counterexample: a qualifying tag named "a:b:c" (two colon-headed
segments) yields factId "c" — the code strips every namespace segment,
not exactly one, which would give "b:c". -/
theorem fact_id_cex :
    emittedRows [twoColonDoc] "9"
      = [{ rssd_id := "9", id := "c", value := "", decimal := "2" }] ∧
    ("c" : String) ≠ "b:c" := by
  exact ⟨by decide, by decide⟩

/-- C4 (amended): factId extraction splits the tag name on colons and
keeps the last segment, removing all namespace-prefixed segments: a name
with no colon is unchanged, and a name of shape p ++ ":" ++ rest with a
colon-free rest (in particular "us-gaap:Assets") yields rest. -/
theorem fact_id_amended :
    (∀ s : String, (∀ c ∈ s.data, c ≠ ':') → fact_id s = s) ∧
    (∀ p rest : String, (∀ c ∈ rest.data, c ≠ ':') →
      fact_id (p ++ ":" ++ rest) = rest) := by
  constructor
  · intro s h
    rw [fact_id_eq_mk, splitOnChar_of_not_mem ':' s.data h, List.getLastD_cons]
    rfl
  · intro p rest h
    rw [fact_id_eq_mk]
    have hd : (p ++ ":" ++ rest).data = p.data ++ ':' :: rest.data := by
      simp [String.data_append]
    rw [hd, splitOnChar_getLastD_append, splitOnChar_of_not_mem ':' rest.data h,
      List.getLastD_cons]
    rfl

/-- Witness for fact_id_amended at the claim's own examples. -/
theorem fact_id_amended_witness :
    fact_id "Assets" = "Assets" ∧ fact_id ("us-gaap" ++ ":" ++ "Assets") = "Assets" :=
  ⟨fact_id_amended.1 "Assets" (by decide),
   fact_id_amended.2 "us-gaap" "Assets" (by decide)⟩

/-- C5: Mapping key construction — every reference-table row's composite
key is the trimmed mnemonic concatenated with the item code zero-padded
to 4 digits, and on duplicate composite keys the later row's Item Name
wins in the dict returned by get_mapping_dict. -/
theorem mapping_key_last_write (pre suf : List MdrmRow) (r : MdrmRow)
    (hno : ∀ q ∈ suf, mappingKey q ≠ mappingKey r) :
    mappingKey r = pyStrip r.mnemonic ++ zfill 4 r.itemCode ∧
    get_mapping_dict (MappingFile.rows (pre ++ r :: suf))
      = Except.ok (dictOf ((pre ++ r :: suf).map (fun q => (mappingKey q, q.itemName)))) ∧
    dictGet (dictOf ((pre ++ r :: suf).map (fun q => (mappingKey q, q.itemName))))
        (mappingKey r)
      = some r.itemName := by
  refine ⟨rfl, rfl, ?_⟩
  unfold dictOf
  rw [List.map_append, List.map_cons, List.foldl_append, List.foldl_cons]
  rw [dictGet_foldl_no_key (suf.map (fun q => (mappingKey q, q.itemName))) (mappingKey r)
    (by
      intro p hp
      obtain ⟨q, hq, rfl⟩ := List.mem_map.mp hp
      exact hno q hq)]
  exact dictGet_dictInsert_self _ (mappingKey r) r.itemName

/-- Witness for mapping_key_last_write: the claim's own examples — a
mnemonic " RCON " with code "7" keys as "RCON0007" and its Item Name is
found even with a later distinct-key row present, and "RCON"+"2170" keys
as "RCON2170". -/
theorem mapping_key_last_write_witness :
    mappingKey (MdrmRow.mk " RCON " "7" "Seven") = "RCON0007" ∧
    mappingKey (MdrmRow.mk "RCON" "2170" "t") = "RCON2170" ∧
    dictGet
        (dictOf ((MdrmRow.mk " RCON " "7" "Seven" ::
            [MdrmRow.mk "RCON" "2170" "Total assets"]).map
          (fun q => (mappingKey q, q.itemName))))
        (mappingKey (MdrmRow.mk " RCON " "7" "Seven"))
      = some "Seven" := by
  refine ⟨by decide, by decide, ?_⟩
  exact (mapping_key_last_write []
    [MdrmRow.mk "RCON" "2170" "Total assets"]
    (MdrmRow.mk " RCON " "7" "Seven") (by decide)).2.2

/-- C6: Identifier invariant — every row a successful process_rssd_id
returns carries exactly the identifier string it was called with (the
one whose integer conversion fed the request). -/
theorem identifier_invariant (w : World) (rssd : String) (facts : List RawFact)
    (h : process_rssd_id w rssd = some facts) :
    ∀ f ∈ facts, f.rssd_id = rssd := by
  unfold process_rssd_id at h
  split at h
  · exact Option.noConfusion h
  · split at h
    · exact Option.noConfusion h
    · split at h
      · exact Option.noConfusion h
      · exact Option.noConfusion h
      · exact Option.noConfusion h
      · split at h
        · exact Option.noConfusion h
        · split at h
          · exact Option.noConfusion h
          · split at h
            · exact Option.noConfusion h
            · next facts0 hparse =>
                injection h with h2
                subst h2
                obtain ⟨x, hx, hf⟩ := parse_ok_facts _ _ _ hparse
                intro f hf2
                rw [hf] at hf2
                obtain ⟨t, ht, rfl⟩ := List.mem_map.mp hf2
                rfl

/-- Witness for identifier_invariant on the concrete world w0. -/
theorem identifier_invariant_witness :
    process_rssd_id w0 "1" = some [sampleFact] ∧ sampleFact.rssd_id = "1" :=
  ⟨by decide,
   identifier_invariant w0 "1" [sampleFact] (by decide) sampleFact
     (List.mem_singleton.mpr rfl)⟩

/-- C7: Empty-input guard — when the identifier input splits and trims
to an empty list, the run reports the input error; the conclusion holds
for every world and mapping state, so no network request or any other
processing is performed. -/
theorem empty_input_guard (w : World) (input : String) (mf : MappingFile)
    (h : parse_ids input = []) :
    runMain w input mf = MainOutcome.inputError := by
  simp [runMain, h]

/-- Witness for empty_input_guard on the input " , ,". -/
theorem empty_input_guard_witness :
    parse_ids " , ," = [] ∧
    runMain w0 " , ," MappingFile.missing = MainOutcome.inputError :=
  ⟨by decide, empty_input_guard w0 " , ," MappingFile.missing (by decide)⟩

/-- C8 counterexample: a 300 status is outside the 2xx success range,
yet fetch_facsimile returns the response instead of failing —
raise_for_status only raises for 4xx/5xx. -/
theorem transport_cex :
    fetch_facsimile (FetchOutcome.response 300 "redirect") = Except.ok "redirect" ∧
    ¬ (200 ≤ 300 ∧ 300 ≤ 299) := by
  exact ⟨rfl, by decide⟩

/-- C8 (amended): the Transport stage fails iff the post itself raises
or the status is a client/server error (400 ≤ status < 600), the error
carrying the status and body; any other status (2xx and 3xx alike)
returns the raw response text. -/
theorem transport_amended :
    fetch_facsimile FetchOutcome.postRaise
      = Except.error TransportError.connectionFailed ∧
    (∀ s t, 400 ≤ s ∧ s < 600 →
      fetch_facsimile (FetchOutcome.response s t)
        = Except.error (TransportError.httpError s t)) ∧
    (∀ s t, ¬ (400 ≤ s ∧ s < 600) →
      fetch_facsimile (FetchOutcome.response s t) = Except.ok t) := by
  refine ⟨rfl, fun s t h => ?_, fun s t h => ?_⟩
  · simp [fetch_facsimile, h]
  · simp [fetch_facsimile, h]

/-- Witness for transport_amended at statuses 500 and 304. -/
theorem transport_amended_witness :
    fetch_facsimile (FetchOutcome.response 500 "oops")
      = Except.error (TransportError.httpError 500 "oops") ∧
    fetch_facsimile (FetchOutcome.response 304 "cached") = Except.ok "cached" :=
  ⟨transport_amended.2.1 500 "oops" (by decide),
   transport_amended.2.2 304 "cached" (by decide)⟩

/-- C9: Label defaulting — labeling is a per-row left-lookup of the
factId in the mapping: the labeled table has one row per fact, each row
keeps the fact's fields, and the label is the mapping entry when the
factId has one and exactly the sentinel "Unknown metric" otherwise. -/
theorem label_defaulting (facts : List RawFact) (m : List (String × String))
    (i : Nat) (h : i < facts.length) :
    (addLabel facts m).length = facts.length ∧
    (addLabel facts m).getD i dfltRow =
      { rssd_id := (facts.getD i dfltFact).rssd_id,
        id := (facts.getD i dfltFact).id,
        value := (facts.getD i dfltFact).value,
        decimal := (facts.getD i dfltFact).decimal,
        label := match dictGet m (facts.getD i dfltFact).id with
                 | some v => v
                 | none => "Unknown metric" } := by
  rw [addLabel_eq_map]
  constructor
  · simp
  · rw [getD_map_of_lt _ facts dfltRow dfltFact i h]
    cases dictGet m (facts.getD i dfltFact).id <;> rfl

/-- Witness for label_defaulting: position 0 has a mapping entry,
position 1 falls back to the sentinel. -/
theorem label_defaulting_witness :
    (addLabel factsW mapW).getD 0 dfltRow
      = { rssd_id := "1", id := "Assets", value := "100", decimal := "0",
          label := "Total assets" } ∧
    (addLabel factsW mapW).getD 1 dfltRow
      = { rssd_id := "1", id := "Zzz", value := "2", decimal := "0",
          label := "Unknown metric" } :=
  ⟨((label_defaulting factsW mapW 0 (by decide)).2).trans (by decide),
   ((label_defaulting factsW mapW 1 (by decide)).2).trans (by decide)⟩

/-- C10: Only a missing reference file degrades gracefully — when
loading the mapping fails with anything other than FileNotFoundError,
even though identifiers produced rows, the run aborts with the generic
batch error and never reaches the success outcome that displays the
table and offers the download. -/
theorem mapping_error_aborts (w : World) (input : String)
    (h1 : parse_ids input ≠ []) (h2 : processBatch w (parse_ids input) ≠ []) :
    runMain w input MappingFile.readError = MainOutcome.genericError ∧
    ∀ raw lab, runMain w input MappingFile.readError ≠ MainOutcome.success raw lab := by
  have hmain : runMain w input MappingFile.readError = MainOutcome.genericError := by
    unfold runMain runBatch
    rw [if_neg (by simpa [List.isEmpty_iff] using h1)]
    rw [if_neg (by simpa [List.isEmpty_iff] using h2)]
    rfl
  exact ⟨hmain, fun raw lab => by simp [hmain]⟩

/-- Witness for mapping_error_aborts in the world w0 with identifier "1". -/
theorem mapping_error_aborts_witness :
    parse_ids "1" ≠ [] ∧ processBatch w0 (parse_ids "1") ≠ [] ∧
    runMain w0 "1" MappingFile.readError = MainOutcome.genericError :=
  ⟨by decide, by decide, (mapping_error_aborts w0 "1" (by decide) (by decide)).1⟩
